import Mathlib

/-!
Shallow embedding of `paper.py`, a command-line arXiv article browser and
batch downloader.  The embedding follows the source file closely:

* `in_range` embeds the function `in_range(num, range_str)` (paper.py
  lines 87-100), including Python's lazy evaluation: `int(end)` in
  `num >= int(start) and num <= int(end)` is only evaluated when the
  first conjunct holds, and the loop returns as soon as a term matches.
* `slugify` embeds `re.sub("[^0-9a-zA-Z_]+", "_", s)` (line 104).
* `validate_pdf` embeds the validation/disposition routine (lines 106-137),
  with the operator's stdin modelled as a finite list of input lines and
  an `eofError` when `input()` is called on an exhausted stream.
* `pyFormat` embeds the subset of `str.format` exercised by the program:
  literal text, `{name}` placeholders looked up among keyword arguments
  (unknown name raises `keyError`), `\x7b\x7b` / `\x7d\x7d` escapes, and a
  `valueError` for unmatched braces.
* `process_entries` / `run` embed the main loop (lines 251-347): the
  per-entry scalar variables (`id_`, `title`, `publish_year`,
  `update_year`) are module-level in Python and are therefore threaded as
  a `LoopState` that is only overwritten when the corresponding feed
  element is present; `authors` and the link list are reset per entry, as
  in the source.  Reading a variable that was never assigned raises
  `nameError`.  The feed fetch `urllib.request.urlopen` (line 242) is the
  `apiCall` event that starts every run; per-link fetches are an oracle
  `String → FetchOutcome`, where `httpError` is `urllib.error.HTTPError`
  (the only exception the download loop catches) and `urlError` stands
  for any other transport exception, which propagates.

Feed entries are modelled after XML extraction: the `<published>` /
`<updated>` timestamps are abstracted into their `strftime("%Y")` year
strings (the pretty-printed time strings are only used by `print` and are
not modelled), and the link elements into the list of pdf hrefs.
-/

deriving instance DecidableEq for Except

namespace Paper

/-- Python exceptions that the modelled code can raise (uncaught ones
abort the run). -/
inductive PyErr where
  | nameError   -- reading a module-level variable that was never assigned
  | valueError  -- int() on a non-numeric string, unpacking mismatch, bad format string
  | keyError    -- unknown placeholder in str.format
  | eofError    -- input() at end of the operator input stream
  | urlError    -- transport error other than urllib.error.HTTPError
  deriving DecidableEq, Repr

/-- Helper for `pySplit`: split a character list at every occurrence of
`sep`, `acc` holding the current piece reversed. -/
def splitOnCharAux (sep : Char) : List Char → List Char → List (List Char)
  | acc, [] => [acc.reverse]
  | acc, c :: rest =>
      if c = sep then acc.reverse :: splitOnCharAux sep [] rest
      else splitOnCharAux sep (c :: acc) rest

/-- Python `s.split(sep)` for a one-character separator (the program only
splits on `","`, `"-"` and `"/"`): `"".split(sep) = [""]`, adjacent
separators yield empty pieces. -/
def pySplit (s : String) (sep : Char) : List String :=
  (splitOnCharAux sep [] s.data).map String.mk

/-- Python `sep in s` for a one-character `sep`. -/
def pyContains (s : String) (sep : Char) : Bool :=
  s.data.contains sep

/-- Python `sep.join(l)`. -/
def pyJoin (sep : String) (l : List String) : String :=
  String.mk (List.intercalate sep.data (l.map String.data))

/-- Numeric value of a list of decimal digit characters. -/
def digitsVal (l : List Char) : Nat :=
  l.foldl (fun acc c => acc * 10 + (c.toNat - 48)) 0

/-- Python `int(s)` on strings, restricted to the forms the program meets:
an optional sign followed by decimal digits (whitespace and underscore
separators are not modelled).  `none` models `ValueError`. -/
def str_to_int? (s : String) : Option Int :=
  match s.data with
  | [] => none
  | '-' :: rest =>
      if !rest.isEmpty && rest.all Char.isDigit then some (-(digitsVal rest : Int)) else none
  | '+' :: rest =>
      if !rest.isEmpty && rest.all Char.isDigit then some ((digitsVal rest : Int)) else none
  | l =>
      if l.all Char.isDigit then some ((digitsVal l : Int)) else none

/-- One iteration of the loop body of `in_range` (paper.py lines 93-99)
for a single comma-separated term `r`: `.ok true` iff the term matches
`num`.  Mirrors Python evaluation order: `"-" in r` decides the branch,
`r.split("-")` must unpack into exactly two parts, `int(start)` is always
evaluated, and `int(end)` only when `num >= int(start)`. -/
def in_range_term (num : Int) (r : String) : Except PyErr Bool :=
  if pyContains r '-' then
    match pySplit r '-' with
    | [first, second] =>
        match str_to_int? first with
        | none => .error .valueError
        | some lo =>
            if num < lo then .ok false
            else
              match str_to_int? second with
              | none => .error .valueError
              | some hi => .ok (decide (num ≤ hi))
    | _ => .error .valueError
  else
    match str_to_int? r with
    | none => .error .valueError
    | some k => .ok (num == k)

/-- The loop of `in_range` over the comma-separated terms, returning at
the first matching term. -/
def in_range_aux (num : Int) : List String → Except PyErr Bool
  | [] => .ok false
  | r :: rest =>
      match in_range_term num r with
      | .error e => .error e
      | .ok true => .ok true
      | .ok false => in_range_aux num rest

/-- `in_range(num, range_str)` (paper.py lines 87-100). -/
def in_range (num : Int) (range_str : String) : Except PyErr Bool :=
  in_range_aux num (pySplit range_str ',')

/-- A parsed term of a range specification: a singleton integer or an
inclusive interval. -/
inductive RangeTerm where
  | single (k : Int)
  | interval (lo hi : Int)
  deriving DecidableEq, Repr

/-- Parse one comma-separated term the way `in_range` would read it. -/
def parse_term (r : String) : Except PyErr RangeTerm :=
  if pyContains r '-' then
    match pySplit r '-' with
    | [first, second] =>
        match str_to_int? first, str_to_int? second with
        | some lo, some hi => .ok (.interval lo hi)
        | _, _ => .error .valueError
    | _ => .error .valueError
  else
    match str_to_int? r with
    | none => .error .valueError
    | some k => .ok (.single k)

/-- Parse a list of comma-separated terms. -/
def parse_terms : List String → Except PyErr (List RangeTerm)
  | [] => .ok []
  | r :: rest =>
      match parse_term r, parse_terms rest with
      | .ok t, .ok ts => .ok (t :: ts)
      | .error e, _ => .error e
      | _, .error e => .error e

/-- Parse a whole range specification string into its terms. -/
def parse_range (s : String) : Except PyErr (List RangeTerm) :=
  parse_terms (pySplit s ',')

/-- Denotation of a term: does `num` match it? -/
def term_matches (num : Int) : RangeTerm → Bool
  | .single k => num == k
  | .interval lo hi => decide (lo ≤ num) && decide (num ≤ hi)

/-- The character class `[0-9a-zA-Z_]` of the slugify regex. -/
def isWordChar (c : Char) : Bool :=
  (('0' ≤ c) && (c ≤ '9')) || (('a' ≤ c) && (c ≤ 'z')) ||
    (('A' ≤ c) && (c ≤ 'Z')) || (c == '_')

/-- `re.sub("[^0-9a-zA-Z_]+", "_", s)` on a character list.  The boolean
flag records whether the previous character was part of a run already
replaced by an underscore, so each maximal non-word run yields exactly
one `'_'`. -/
def slugifyAux : Bool → List Char → List Char
  | _, [] => []
  | inRun, c :: rest =>
      if isWordChar c then c :: slugifyAux false rest
      else if inRun then slugifyAux true rest
      else '_' :: slugifyAux true rest

/-- `slugify(s)` (paper.py lines 102-104). -/
def slugify (s : String) : String :=
  String.mk (slugifyAux false s.data)

/-- Observable actions of a run, in program order. -/
inductive Event where
  | apiCall                                      -- urllib.request.urlopen of the feed query (line 242)
  | printEntry (index : Nat)                     -- print(numbering) for a surviving entry (line 288)
  | fetchAttempt (link : String) (path : String) -- urllib.request.urlretrieve(link, path) (line 338)
  | reportFailure (link : String)                -- traceback + DOWNLOAD_FAIL_MESSAGE on HTTPError (lines 340-341)
  | readSig (path : String)                      -- open(file_path).read(4) signature check (lines 112-114)
  | removeFile (path : String)                   -- os.remove(file_path) (line 119 or 129)
  | promptUser (path : String)                   -- input(NONPDF.format(file_path)) (line 126)
  | usageError                                   -- "valid choices are 'y' and 'n'" (line 134)
  deriving DecidableEq, Repr

/-- `YES = ["", "y", "yes"]` (line 70). -/
def YES : List String := ["", "y", "yes"]

/-- `NO = ["n", "no"]` (line 71). -/
def NO : List String := ["n", "no"]

/-- Python `str.lower()` (ASCII range suffices for the inputs compared
against `YES`/`NO`). -/
def pyLower (s : String) : String := String.mk (s.data.map Char.toLower)

/-- `b"%PDF"`, the signature compared against the first four bytes. -/
def pdfMagic : List UInt8 := [0x25, 0x50, 0x44, 0x46]

/-- The `while not ok` prompt loop of `validate_pdf` (lines 123-137),
driven by the remaining operator input lines.  Returns the events it
performs and either `eofError` (the stream ran out at an `input()` call)
or the pair (file removed?, remaining input lines). -/
def prompt_loop (file_path : String) :
    List String → List Event × Except PyErr (Bool × List String)
  | [] => ([.promptUser file_path], .error .eofError)
  | choice :: rest =>
      let c := pyLower choice
      if c ∈ YES then
        ([.promptUser file_path, .removeFile file_path], .ok (true, rest))
      else if c ∈ NO then
        ([.promptUser file_path], .ok (false, rest))
      else
        let r := prompt_loop file_path rest
        (.promptUser file_path :: .usageError :: r.1, r.2)

/-- `validate_pdf(file_path, keep_non_pdf, remove_non_pdf)` (lines
106-137).  `file_content` is the byte content of the just-downloaded
file; `stdin` the pending operator input lines.  Returns the events and
either an uncaught error or (file removed?, remaining input). -/
def validate_pdf (file_content : List UInt8) (file_path : String)
    (keep_non_pdf remove_non_pdf : Bool) (stdin : List String) :
    List Event × Except PyErr (Bool × List String) :=
  if keep_non_pdf then
    ([], .ok (false, stdin))
  else if file_content.take 4 = pdfMagic then
    ([.readSig file_path], .ok (false, stdin))
  else if remove_non_pdf then
    ([.readSig file_path, .removeFile file_path], .ok (true, stdin))
  else
    let r := prompt_loop file_path stdin
    (.readSig file_path :: r.1, r.2)

/-- The fragment of Python `str.format` used by the program, scanning the
template one character at a time.  The first argument is the scanner
mode: `none` while copying literal text, `some acc` while reading a
placeholder name (`acc` holds the name characters in reverse).  Literal
characters pass through, `\x7b name \x7d` is replaced by the value bound to
`name` among the keyword arguments (an unknown name raises `keyError`),
doubled braces are escapes, and a lone or unterminated brace is a
`valueError`. -/
def pyFormatAux (fields : List (String × String)) :
    Option (List Char) → List Char → Except PyErr (List Char)
  | none, [] => .ok []
  | some _, [] => .error .valueError
  | none, '\x7b' :: '\x7b' :: rest => ('\x7b' :: ·) <$> pyFormatAux fields none rest
  | none, '\x7b' :: rest => pyFormatAux fields (some []) rest
  | none, '\x7d' :: '\x7d' :: rest => ('\x7d' :: ·) <$> pyFormatAux fields none rest
  | none, '\x7d' :: _ => .error .valueError
  | none, c :: rest => (c :: ·) <$> pyFormatAux fields none rest
  | some acc, '\x7d' :: rest =>
      match fields.lookup (String.mk acc.reverse) with
      | none => .error .keyError
      | some v => (v.data ++ ·) <$> pyFormatAux fields none rest
  | some acc, c :: rest => pyFormatAux fields (some (c :: acc)) rest

/-- `template.format(...)` on strings. -/
def pyFormat (fields : List (String × String)) (template : String) : Except PyErr String :=
  (pyFormatAux fields none template.data).map String.mk

/-- The slug rendering of paper.py lines 291-297: slugify the title,
slugify each author name and join with `-`, then substitute into the
filename template. -/
def render_slug (template : String) (id_ title : String) (authors : List String)
    (publish_year update_year : String) : Except PyErr String :=
  let slugified_title := slugify title
  let slugified_authors := pyJoin "-" (authors.map slugify)
  pyFormat [("id", id_), ("auth", slugified_authors), ("title", slugified_title),
            ("pub", publish_year), ("updt", update_year)] template

/-- The post-`argparse` configuration relevant to the main loop. -/
structure Config where
  publish_years : Option String := none      -- args.publish_years
  update_years : Option String := none       -- args.update_years
  download : Bool := false                   -- args.download
  output_filename_template : String := "{pub}-{auth}-{title}-{id}"
  output_dir : String := "."
  download_selection : Option String := none -- args.download_selection
  remove_non_pdf : Bool := false
  keep_non_pdf : Bool := false
  deriving DecidableEq, Repr

/-- The three mutually exclusive dispositions for a non-pdf download
(argparse enforces that `-r` and `-k` cannot be combined). -/
inductive NonPdfPolicy where
  | prompt | autoRemove | autoKeep
  deriving DecidableEq, Repr

/-- The `keep_non_pdf` flag a policy corresponds to. -/
def policy_keep : NonPdfPolicy → Bool
  | .autoKeep => true
  | _ => false

/-- The `remove_non_pdf` flag a policy corresponds to. -/
def policy_remove : NonPdfPolicy → Bool
  | .autoRemove => true
  | _ => false

/-- Python truthiness of an optional string option (absent or empty is
falsy). -/
def optTruthy : Option String → Bool
  | none => false
  | some s => !s.data.isEmpty

/-- A feed entry after XML extraction.  Optional fields model elements
that may be absent from the entry's XML; `authors` and `pdf_links` are
rebuilt from scratch for every entry in the source (lines 255-256,
306-314), so they are plain lists.  Timestamps are abstracted into their
`strftime("%Y")` year strings. -/
structure RawEntry where
  id? : Option String := none             -- text of the <id> element (URL form)
  title? : Option String := none          -- text of the <title> element
  authors : List String := []             -- author <name> texts, in order
  published_year? : Option String := none -- strftime("%Y") of <published>
  updated_year? : Option String := none   -- strftime("%Y") of <updated>
  pdf_links : List String := []           -- hrefs of links with title "pdf" or type application/pdf
  deriving DecidableEq, Repr

/-- The per-entry scalar variables of the main loop.  In Python these are
module-level names assigned inside the entry loop, so a value persists
into later iterations until overwritten; `none` means the name was never
assigned (reading it raises `NameError`). -/
structure LoopState where
  id? : Option String := none
  title? : Option String := none
  publish_year? : Option String := none
  update_year? : Option String := none
  deriving DecidableEq, Repr

/-- `child.text.split("/")[-1]` applied to the `<id>` element text
(line 259). -/
def lastSlashComponent (s : String) : String :=
  ((pySplit s '/').getLast?).getD ""

/-- The field-extraction inner loop (lines 257-277): each element present
in the entry overwrites the corresponding variable; absent elements leave
the previous value in place. -/
def step_state (st : LoopState) (e : RawEntry) : LoopState :=
  { id? := match e.id? with
           | some t => some (lastSlashComponent t)
           | none => st.id?
    title? := match e.title? with
              | some t => some t
              | none => st.title?
    publish_year? := match e.published_year? with
                     | some y => some y
                     | none => st.publish_year?
    update_year? := match e.updated_year? with
                    | some y => some y
                    | none => st.update_year? }

/-- The update-year filter (lines 282-284), the second half of
`entry_filter`. -/
def entry_filter_update (cfg : Config) (st : LoopState) : Except PyErr Bool :=
  if optTruthy cfg.update_years then
    match st.update_year? with
    | none => .error .nameError
    | some uy =>
        match str_to_int? uy with
        | none => .error .valueError
        | some n =>
            match in_range n (cfg.update_years.getD "") with
            | .error e => .error e
            | .ok true => .ok true
            | .ok false => .ok false
  else .ok true

/-- The two year filters (lines 279-284): an entry is kept iff every
truthy filter accepts the corresponding year.  Mirrors evaluation order:
the publish filter runs first; each filter reads the (possibly
inherited) year variable, converts it with `int`, and calls `in_range`. -/
def entry_filter (cfg : Config) (st : LoopState) : Except PyErr Bool :=
  if optTruthy cfg.publish_years then
    match st.publish_year? with
    | none => .error .nameError
    | some py =>
        match str_to_int? py with
        | none => .error .valueError
        | some n =>
            match in_range n (cfg.publish_years.getD "") with
            | .error e => .error e
            | .ok true => entry_filter_update cfg st
            | .ok false => .ok false
  else entry_filter_update cfg st

/-- Slug computation for a surviving entry (lines 291-297), reading the
scalar variables in the order the source evaluates them (`title` at line
291, then `id_`, `publish_year`, `update_year` as `.format` arguments). -/
def render_entry (cfg : Config) (st : LoopState) (authors : List String) :
    Except PyErr String :=
  match st.title?, st.id?, st.publish_year?, st.update_year? with
  | some title, some id_, some pub, some updt =>
      render_slug cfg.output_filename_template id_ title authors pub updt
  | _, _, _, _ => .error .nameError

/-- The download guard (lines 323-325): `args.download and (not
args.download_selection or in_range(entry_index, args.download_selection))`,
with Python short-circuiting. -/
def want_download (cfg : Config) (entry_index : Nat) : Except PyErr Bool :=
  if cfg.download then
    if optTruthy cfg.download_selection then
      in_range (Int.ofNat entry_index) (cfg.download_selection.getD "")
    else .ok true
  else .ok false

/-- Outcome of `urllib.request.urlretrieve` on one link. -/
inductive FetchOutcome where
  | success (content : List UInt8) -- file written with this content
  | httpError                      -- urllib.error.HTTPError: caught (lines 339-341)
  | urlError                       -- any other transport error: uncaught, aborts the run
  deriving DecidableEq, Repr

/-- The per-entry download loop (lines 327-347): for each pdf link, build
the target path from the entry-local `excess_index` counter, fetch, on
`HTTPError` report and continue, on success validate; the counter is
incremented once per link regardless of outcome.  Returns the events and
either an uncaught error or the remaining operator input. -/
def download_links (cfg : Config) (fetch : String → FetchOutcome) (slug : String) :
    List String → Nat → List String → List Event × Except PyErr (List String)
  | [], _, stdin => ([], .ok stdin)
  | link :: rest, excess_index, stdin =>
      let path :=
        if excess_index > 1 then
          cfg.output_dir ++ "/" ++ slug ++ "--" ++ toString excess_index ++ ".pdf"
        else
          cfg.output_dir ++ "/" ++ slug ++ ".pdf"
      match fetch link with
      | .success content =>
          (match validate_pdf content path cfg.keep_non_pdf cfg.remove_non_pdf stdin with
           | (vevs, .error e) => (Event.fetchAttempt link path :: vevs, .error e)
           | (vevs, .ok (_, stdin2)) =>
               let r2 := download_links cfg fetch slug rest (excess_index + 1) stdin2
               (Event.fetchAttempt link path :: vevs ++ r2.1, r2.2))
      | .httpError =>
          let r2 := download_links cfg fetch slug rest (excess_index + 1) stdin
          (Event.fetchAttempt link path :: Event.reportFailure link :: r2.1, r2.2)
      | .urlError =>
          ([Event.fetchAttempt link path], .error .urlError)

/-- The main entry loop (lines 251-347) over the extracted feed entries.
Returns, in program order, the events performed, the surviving entries as
(display index, rendered slug) pairs, and `some err` when an uncaught
exception aborted the run. -/
def process_entries (cfg : Config) (fetch : String → FetchOutcome) :
    List RawEntry → LoopState → Nat → List String →
    List Event × List (Nat × String) × Option PyErr
  | [], _, _, _ => ([], [], none)
  | e :: rest, st, entry_index, stdin =>
      let st2 := step_state st e
      match entry_filter cfg st2 with
      | .error err => ([], [], some err)
      | .ok false => process_entries cfg fetch rest st2 entry_index stdin
      | .ok true =>
          let idx := entry_index + 1
          match render_entry cfg st2 e.authors with
          | .error err => ([.printEntry idx], [], some err)
          | .ok slug =>
              match want_download cfg idx with
              | .error err => ([.printEntry idx], [(idx, slug)], some err)
              | .ok false =>
                  let r := process_entries cfg fetch rest st2 idx stdin
                  (.printEntry idx :: r.1, (idx, slug) :: r.2.1, r.2.2)
              | .ok true =>
                  (match download_links cfg fetch slug e.pdf_links 1 stdin with
                   | (devs, .error err) => (.printEntry idx :: devs, [(idx, slug)], some err)
                   | (devs, .ok stdin2) =>
                       let r := process_entries cfg fetch rest st2 idx stdin2
                       (.printEntry idx :: devs ++ r.1, (idx, slug) :: r.2.1, r.2.2))

/-- A whole run: the feed query network call (line 242) happens first,
then the entries extracted from the response are processed with all
scalar variables initially unassigned and `entry_index = 0` (line 251). -/
def run (cfg : Config) (fetch : String → FetchOutcome) (feed : List RawEntry)
    (stdin : List String) : List Event × List (Nat × String) × Option PyErr :=
  let r := process_entries cfg fetch feed {} 0 stdin
  (Event.apiCall :: r.1, r.2.1, r.2.2)

/-- The lowercased first operator answer that is a valid choice (member
of `YES` or `NO`), if any. -/
def first_valid (stdin : List String) : Option String :=
  (stdin.find? (fun s => decide (pyLower s ∈ YES) || decide (pyLower s ∈ NO))).map pyLower

/-- The (link, target path) pairs of the fetch attempts in an event
trace, in order. -/
def attemptsOf (evs : List Event) : List (String × String) :=
  evs.filterMap (fun e =>
    match e with
    | .fetchAttempt l p => some (l, p)
    | _ => none)

/-- The target path the download loop builds for counter value `k`
(paper.py lines 333-337). -/
def expected_path (cfg : Config) (slug : String) (k : Nat) : String :=
  if k > 1 then cfg.output_dir ++ "/" ++ slug ++ "--" ++ toString k ++ ".pdf"
  else cfg.output_dir ++ "/" ++ slug ++ ".pdf"

/-! ## Theorems -/

theorem isWordChar_of_mem_slugifyAux :
    ∀ (l : List Char) (b : Bool), ∀ c ∈ slugifyAux b l, isWordChar c = true := by
  intro l
  induction l with
  | nil => intro b c hc; simp [slugifyAux] at hc
  | cons c rest ih =>
      intro b d hd
      by_cases hw : isWordChar c
      · rw [slugifyAux, if_pos hw] at hd
        rcases List.mem_cons.mp hd with h | h
        · exact h ▸ hw
        · exact ih false d h
      · cases b with
        | true =>
            rw [slugifyAux, if_neg hw, if_pos rfl] at hd
            exact ih true d hd
        | false =>
            rw [slugifyAux, if_neg hw] at hd
            simp only [Bool.false_eq_true, if_false] at hd
            rcases List.mem_cons.mp hd with h | h
            · subst h; rfl
            · exact ih true d h

theorem slugifyAux_id_of_word :
    ∀ (l : List Char), (∀ c ∈ l, isWordChar c = true) → ∀ b, slugifyAux b l = l := by
  intro l
  induction l with
  | nil => intro _ b; rfl
  | cons c rest ih =>
      intro h b
      have hw : isWordChar c = true := h c (List.mem_cons_self c rest)
      rw [slugifyAux, if_pos hw, ih (fun d hd => h d (List.mem_cons_of_mem c hd)) false]

/-- C9: `slugify` collapses every maximal run of non-word characters to a
single underscore, so it is idempotent, and
`slugify "Art I. Ficial!!" = "Art_I_Ficial_"`. -/
theorem slugify_idempotent :
    (∀ s : String, slugify (slugify s) = slugify s) ∧
      slugify "Art I. Ficial!!" = "Art_I_Ficial_" := by
  constructor
  · intro s
    show String.mk (slugifyAux false (slugifyAux false s.data)) = _
    rw [slugifyAux_id_of_word _ (isWordChar_of_mem_slugifyAux s.data false) false]
    rfl
  · decide

/-- C1 counterexample: with the keep-non-pdf policy, `validate_pdf`
returns before opening the file, so the four-byte signature check is not
performed on this (non-pdf) downloaded file. -/
theorem signature_check_skipped_counterexample :
    Event.readSig "f.pdf" ∉ (validate_pdf [0x3C, 0x68, 0x74, 0x6D] "f.pdf"
      (policy_keep NonPdfPolicy.autoKeep) (policy_remove NonPdfPolicy.autoKeep) []).1 := by
  decide

/-- C1 amended: the first-4-bytes signature check runs if and only if the
policy is not AutoKeep; under AutoKeep, `validate_pdf` skips the whole
validation, the signature check included, not just the removal step. -/
theorem signature_check_iff_not_keep :
    ∀ (content : List UInt8) (path : String) (policy : NonPdfPolicy) (stdin : List String),
      Event.readSig path ∈
          (validate_pdf content path (policy_keep policy) (policy_remove policy) stdin).1
        ↔ policy ≠ NonPdfPolicy.autoKeep := by
  intro content path policy stdin
  cases policy with
  | autoKeep => simp [validate_pdf, policy_keep, policy_remove]
  | autoRemove =>
      by_cases h : content.take 4 = pdfMagic <;>
        simp [validate_pdf, policy_keep, policy_remove, h]
  | prompt =>
      by_cases h : content.take 4 = pdfMagic <;>
        simp [validate_pdf, policy_keep, policy_remove, h]

theorem prompt_loop_remove_iff :
    ∀ (path : String) (stdin : List String),
      Event.removeFile path ∈ (prompt_loop path stdin).1 ↔
        ∃ a, first_valid stdin = some a ∧ a ∈ YES := by
  intro path stdin
  induction stdin with
  | nil => simp [prompt_loop, first_valid]
  | cons choice rest ih =>
      by_cases hy : pyLower choice ∈ YES
      · simp [prompt_loop, hy, first_valid, List.find?_cons]
      · by_cases hn : pyLower choice ∈ NO
        · simp [prompt_loop, hy, hn, first_valid, List.find?_cons]
        · simpa [prompt_loop, hy, hn, first_valid, List.find?_cons] using ih

theorem prompt_loop_all_invalid :
    ∀ (path : String) (stdin : List String),
      (∀ s ∈ stdin, pyLower s ∉ YES ∧ pyLower s ∉ NO) →
      (prompt_loop path stdin).2 = .error PyErr.eofError ∧
        (prompt_loop path stdin).1.count Event.usageError = stdin.length := by
  intro path stdin
  induction stdin with
  | nil => intro _; simp [prompt_loop]
  | cons choice rest ih =>
      intro h
      have hc := h choice (List.mem_cons_self choice rest)
      have hr := ih (fun s hs => h s (List.mem_cons_of_mem choice hs))
      simp [prompt_loop, hc.1, hc.2, hr.1, hr.2, List.count_cons]

/-- C5: a downloaded file whose first four bytes are `%PDF` is never
deleted under any policy; a file not beginning with those bytes is
deleted iff the policy is AutoRemove, or the policy is Prompt and the
operator's first valid answer (case-insensitive) is empty, `y` or `yes`;
under Prompt every invalid answer prints a usage error and re-prompts
without bound (a stream of invalid answers is consumed whole, one usage
error per answer, and the loop is still waiting for input at its end). -/
theorem nonpdf_disposition :
    ∀ (content : List UInt8) (path : String) (policy : NonPdfPolicy) (stdin : List String),
      (content.take 4 = pdfMagic →
        Event.removeFile path ∉
          (validate_pdf content path (policy_keep policy) (policy_remove policy) stdin).1) ∧
      (content.take 4 ≠ pdfMagic →
        (Event.removeFile path ∈
            (validate_pdf content path (policy_keep policy) (policy_remove policy) stdin).1 ↔
          policy = NonPdfPolicy.autoRemove ∨
            (policy = NonPdfPolicy.prompt ∧ ∃ a, first_valid stdin = some a ∧ a ∈ YES))) ∧
      (content.take 4 ≠ pdfMagic → policy = NonPdfPolicy.prompt →
        (∀ s ∈ stdin, pyLower s ∉ YES ∧ pyLower s ∉ NO) →
        (validate_pdf content path (policy_keep policy) (policy_remove policy) stdin).2 =
            .error PyErr.eofError ∧
          (validate_pdf content path (policy_keep policy)
              (policy_remove policy) stdin).1.count Event.usageError = stdin.length) := by
  intro content path policy stdin
  refine ⟨?_, ?_, ?_⟩
  · intro h
    cases policy <;> simp [validate_pdf, policy_keep, policy_remove, h]
  · intro h
    cases policy with
    | autoKeep => simp [validate_pdf, policy_keep, policy_remove, h]
    | autoRemove => simp [validate_pdf, policy_keep, policy_remove, h]
    | prompt =>
        simp only [validate_pdf, policy_keep, policy_remove, if_neg h, Bool.false_eq_true,
          if_false, List.mem_cons, reduceCtorEq, false_or]
        rw [prompt_loop_remove_iff]
        simp
  · intro h hp hinv
    subst hp
    have := prompt_loop_all_invalid path stdin hinv
    simp [validate_pdf, policy_keep, policy_remove, h, this.1, this.2, List.count_cons]

/-- Witness for `nonpdf_disposition`: a non-pdf download under the
Prompt policy, where the operator first answers `q` (invalid) and then
`yes`, is deleted. -/
theorem nonpdf_disposition_witness :
    ([0x3C] : List UInt8).take 4 ≠ pdfMagic ∧
      Event.removeFile "f.pdf" ∈
        (validate_pdf [0x3C] "f.pdf" (policy_keep NonPdfPolicy.prompt)
          (policy_remove NonPdfPolicy.prompt) ["q", "yes"]).1 :=
  ⟨by decide,
    ((nonpdf_disposition [0x3C] "f.pdf" NonPdfPolicy.prompt ["q", "yes"]).2.1
        (by decide)).mpr
      (Or.inr ⟨rfl, "yes", by decide, by decide⟩)⟩

theorem in_range_term_of_parse (n : Int) (r : String) (t : RangeTerm)
    (h : parse_term r = .ok t) : in_range_term n r = .ok (term_matches n t) := by
  unfold parse_term at h
  unfold in_range_term
  by_cases hc : pyContains r '-'
  · rw [if_pos hc] at h ⊢
    generalize hsp : pySplit r '-' = parts at h ⊢
    rcases parts with _ | ⟨a, _ | ⟨b, _ | ⟨c, tl⟩⟩⟩
    · exact absurd h (by simp)
    · exact absurd h (by simp)
    · replace h : (match str_to_int? a, str_to_int? b with
          | some lo, some hi => Except.ok (RangeTerm.interval lo hi)
          | _, _ => Except.error PyErr.valueError) = Except.ok t := h
      show (match str_to_int? a with
          | none => Except.error PyErr.valueError
          | some lo =>
              if n < lo then Except.ok false
              else
                match str_to_int? b with
                | none => Except.error PyErr.valueError
                | some hi => Except.ok (decide (n ≤ hi))) = Except.ok (term_matches n t)
      rcases hA : str_to_int? a with _ | lo
      · rw [hA] at h
        exact absurd h (by simp)
      · rcases hB : str_to_int? b with _ | hi
        · rw [hA, hB] at h
          exact absurd h (by simp)
        · rw [hA, hB] at h
          simp only [Except.ok.injEq] at h
          subst h
          show (if n < lo then Except.ok false else Except.ok (decide (n ≤ hi))) =
            Except.ok (term_matches n (RangeTerm.interval lo hi))
          by_cases hlt : n < lo
          · rw [if_pos hlt]
            simp [term_matches, show ¬(lo ≤ n) by omega]
          · rw [if_neg hlt]
            simp [term_matches, show lo ≤ n by omega]
    · exact absurd h (by simp)
  · rw [if_neg hc] at h ⊢
    rcases hK : str_to_int? r with _ | k
    · rw [hK] at h
      exact absurd h (by simp)
    · rw [hK] at h
      simp only [Except.ok.injEq] at h
      subst h
      simp [term_matches]

theorem in_range_aux_of_parse (n : Int) :
    ∀ (rs : List String) (ts : List RangeTerm), parse_terms rs = .ok ts →
      in_range_aux n rs = .ok (ts.any (term_matches n)) := by
  intro rs
  induction rs with
  | nil =>
      intro ts h
      simp only [parse_terms, Except.ok.injEq] at h
      subst h
      rfl
  | cons r rest ih =>
      intro ts h
      simp only [parse_terms] at h
      cases hT : parse_term r with
      | error e => rw [hT] at h; exact absurd h (by simp)
      | ok t =>
          cases hR : parse_terms rest with
          | error e => rw [hT, hR] at h; exact absurd h (by simp)
          | ok ts2 =>
              rw [hT, hR] at h
              injection h with h
              subst h
              simp only [in_range_aux, in_range_term_of_parse n r t hT]
              cases hm : term_matches n t with
              | true => simp [hm]
              | false => simp [hm, ih ts2 hR]

/-- C4: for every range specification `S` that parses into terms `ts`
and every integer `n`, `in_range` returns true exactly when `n` equals a
singleton term or lies inside an interval term, inclusive on both ends;
in particular `"3,7-9"` matches exactly the integers 3, 7, 8, 9. -/
theorem range_membership :
    ∀ (S : String) (ts : List RangeTerm) (n : Int), parse_range S = .ok ts →
      (in_range n S = .ok true ↔
        ∃ t ∈ ts,
          match t with
          | RangeTerm.single k => n = k
          | RangeTerm.interval lo hi => lo ≤ n ∧ n ≤ hi) ∧
      (S = "3,7-9" → (in_range n S = .ok true ↔ n = 3 ∨ n = 7 ∨ n = 8 ∨ n = 9)) := by
  intro S ts n h
  have hmain : in_range n S = .ok (ts.any (term_matches n)) :=
    in_range_aux_of_parse n _ ts h
  have hiff : in_range n S = .ok true ↔
      ∃ t ∈ ts,
        match t with
        | RangeTerm.single k => n = k
        | RangeTerm.interval lo hi => lo ≤ n ∧ n ≤ hi := by
    rw [hmain]
    simp only [Except.ok.injEq, List.any_eq_true]
    constructor
    · rintro ⟨t, ht, hm⟩
      exact ⟨t, ht, by cases t <;> simpa [term_matches] using hm⟩
    · rintro ⟨t, ht, hm⟩
      refine ⟨t, ht, ?_⟩
      cases t with
      | single k => simpa [term_matches] using hm
      | interval lo hi => simp [term_matches, hm.1, hm.2]
  refine ⟨hiff, ?_⟩
  intro hS
  subst hS
  have hts : ts = [RangeTerm.single 3, RangeTerm.interval 7 9] := by
    have hps : parse_range "3,7-9" = .ok [RangeTerm.single 3, RangeTerm.interval 7 9] := by
      decide
    rw [hps] at h
    injection h with h
    exact h.symm
  subst hts
  rw [hiff]
  simp only [List.mem_cons, List.not_mem_nil, or_false]
  constructor
  · rintro ⟨t, ht | ht, hm⟩ <;> subst ht <;> simp at hm <;> omega
  · intro hn
    rcases hn with hn | hn
    · exact ⟨RangeTerm.single 3, Or.inl rfl, by simpa using hn⟩
    · exact ⟨RangeTerm.interval 7 9, Or.inr rfl, by simp; omega⟩

/-- Witness for `range_membership` at the spec's own example `"3,7-9"`
and `n = 8`. -/
theorem range_membership_witness :
    parse_range "3,7-9" = .ok [RangeTerm.single 3, RangeTerm.interval 7 9] ∧
      (in_range 8 "3,7-9" = .ok true ↔
        (8 : Int) = 3 ∨ (8 : Int) = 7 ∨ (8 : Int) = 8 ∨ (8 : Int) = 9) :=
  ⟨by decide,
    (range_membership "3,7-9" [RangeTerm.single 3, RangeTerm.interval 7 9] 8 (by decide)).2 rfl⟩

/-- C8: rendering the template `"{pub}-{auth}-{title}-{id}"` with the
example fields yields exactly
`"2023-Art_Ficial-Quantum_Stuff-2309.06314"`, and in general the author
slugs are joined with `"-"` before substitution. -/
theorem template_rendering :
    render_slug "{pub}-{auth}-{title}-{id}" "2309.06314" "Quantum Stuff" ["Art Ficial"]
        "2023" "2024" = .ok "2023-Art_Ficial-Quantum_Stuff-2309.06314" ∧
      ∀ (id_ title pub updt : String) (authors : List String),
        render_slug "{auth}" id_ title authors pub updt =
          .ok (pyJoin "-" (authors.map slugify)) := by
  refine ⟨by decide, ?_⟩
  intro id_ title pub updt authors
  show Except.ok (String.mk ((pyJoin "-" (authors.map slugify)).data ++ [])) = _
  rw [List.append_nil]

theorem attemptsOf_prompt_loop :
    ∀ (path : String) (stdin : List String), attemptsOf (prompt_loop path stdin).1 = [] := by
  intro path stdin
  induction stdin with
  | nil => rfl
  | cons choice rest ih =>
      by_cases hy : pyLower choice ∈ YES
      · simp [prompt_loop, hy, attemptsOf]
      · by_cases hn : pyLower choice ∈ NO
        · simp [prompt_loop, hy, hn, attemptsOf]
        · simpa [prompt_loop, hy, hn, attemptsOf] using ih

theorem attemptsOf_validate_pdf :
    ∀ (content : List UInt8) (path : String) (keep remove : Bool) (stdin : List String),
      attemptsOf (validate_pdf content path keep remove stdin).1 = [] := by
  intro content path keep remove stdin
  unfold validate_pdf
  by_cases hk : keep = true
  · simp [hk, attemptsOf]
  · by_cases hm : content.take 4 = pdfMagic
    · simp [hk, hm, attemptsOf]
    · by_cases hr : remove = true
      · simp [hk, hm, hr, attemptsOf]
      · simpa [hk, hm, hr, attemptsOf] using attemptsOf_prompt_loop path stdin

theorem download_links_attempts :
    ∀ (cfg : Config) (fetch : String → FetchOutcome) (slug : String)
      (links : List String) (k : Nat) (stdin stdin2 : List String),
      (download_links cfg fetch slug links k stdin).2 = .ok stdin2 →
      attemptsOf (download_links cfg fetch slug links k stdin).1 =
        links.zip ((List.range' k links.length).map (expected_path cfg slug)) := by
  intro cfg fetch slug links
  induction links with
  | nil => intro k stdin stdin2 _; simp [download_links, attemptsOf]
  | cons link rest ih =>
      intro k stdin stdin2 h
      simp only [download_links] at h ⊢
      rw [show (if k > 1 then
              cfg.output_dir ++ "/" ++ slug ++ "--" ++ toString k ++ ".pdf"
            else cfg.output_dir ++ "/" ++ slug ++ ".pdf") = expected_path cfg slug k
          from rfl] at h ⊢
      cases hf : fetch link with
      | success content =>
          rw [hf] at h
          have hva := attemptsOf_validate_pdf content (expected_path cfg slug k)
            cfg.keep_non_pdf cfg.remove_non_pdf stdin
          rcases hv : validate_pdf content (expected_path cfg slug k)
              cfg.keep_non_pdf cfg.remove_non_pdf stdin with ⟨vevs, vres⟩
          rw [hv] at hva
          cases vres with
          | error e => simp [hv] at h
          | ok pr =>
              rcases pr with ⟨b, stdin3⟩
              simp only [hv] at h ⊢
              have hrec := ih (k + 1) stdin3 stdin2 (by simpa using h)
              simp only [List.length_cons, List.range'_succ, List.map_cons, List.zip_cons_cons]
              simp only [attemptsOf, List.filterMap_cons, List.filterMap_append] at hva hrec ⊢
              simp [hva, hrec]
      | httpError =>
          rw [hf] at h
          have hrec := ih (k + 1) stdin stdin2 (by simpa using h)
          simp only [List.length_cons, List.range'_succ, List.map_cons, List.zip_cons_cons]
          simp only [attemptsOf, List.filterMap_cons] at hrec ⊢
          simpa using hrec
      | urlError =>
          rw [hf] at h
          simp at h

/-- C7: whenever the per-entry download loop runs to completion, the
`j`-th link (1-based) is fetched to `{output_dir}/{slug}.pdf` when
`j = 1` and to `{output_dir}/{slug}--{j}.pdf` when `j ≥ 2`, in link
order, the counter advancing once per link regardless of each fetch's
outcome (`expected_path` is exactly the path builder of lines 333-337). -/
theorem multi_link_naming :
    ∀ (cfg : Config) (fetch : String → FetchOutcome) (slug : String)
      (links : List String) (stdin stdin2 : List String),
      (download_links cfg fetch slug links 1 stdin).2 = .ok stdin2 →
      attemptsOf (download_links cfg fetch slug links 1 stdin).1 =
        links.zip ((List.range' 1 links.length).map (expected_path cfg slug)) :=
  fun cfg fetch slug links stdin stdin2 h =>
    download_links_attempts cfg fetch slug links 1 stdin stdin2 h

/-- Witness for `multi_link_naming`: basename `X` and two links produce
`./X.pdf` then `./X--2.pdf`, with one link failing with an HTTPError on
the way. -/
theorem multi_link_naming_witness :
    (download_links { keep_non_pdf := true }
        (fun l => if l = "l1" then FetchOutcome.httpError else FetchOutcome.success pdfMagic)
        "X" ["l1", "l2"] 1 []).2 = .ok [] ∧
      attemptsOf (download_links { keep_non_pdf := true }
          (fun l => if l = "l1" then FetchOutcome.httpError else FetchOutcome.success pdfMagic)
          "X" ["l1", "l2"] 1 []).1 = [("l1", "./X.pdf"), ("l2", "./X--2.pdf")] := by
  refine ⟨by decide, ?_⟩
  rw [multi_link_naming _ _ _ _ _ [] (by decide)]
  decide

theorem process_entries_indices :
    ∀ (cfg : Config) (fetch : String → FetchOutcome) (feed : List RawEntry)
      (st : LoopState) (idx : Nat) (stdin : List String),
      (process_entries cfg fetch feed st idx stdin).2.1.map Prod.fst =
        List.range' (idx + 1) (process_entries cfg fetch feed st idx stdin).2.1.length := by
  intro cfg fetch feed
  induction feed with
  | nil => intro st idx stdin; simp [process_entries]
  | cons e rest ih =>
      intro st idx stdin
      simp only [process_entries]
      split
      · simp
      · apply ih
      · split
        · simp
        · split
          · simp [List.range'_succ]
          · simp only [List.map_cons, List.length_cons, List.range'_succ]
            rw [ih (step_state st e) (idx + 1) stdin]
          · split
            · simp [List.range'_succ]
            · simp only [List.map_cons, List.length_cons, List.range'_succ]
              rw [ih (step_state st e) (idx + 1) _]

/-- C6: display indices are assigned from a single counter starting at 1,
incremented exactly when an entry survives the year filters, so the
indices of the emitted entries are `1, 2, 3, …` with no gaps; filtering
five entries where the filter excludes entries 2 and 4 yields indices
1, 2, 3 attached to entries 1, 3, 5. -/
theorem index_assignment :
    (∀ (cfg : Config) (fetch : String → FetchOutcome) (feed : List RawEntry)
        (stdin : List String),
        (run cfg fetch feed stdin).2.1.map Prod.fst =
          List.range' 1 (run cfg fetch feed stdin).2.1.length) ∧
      (run { publish_years := some "2000", output_filename_template := "{title}" }
          (fun _ => FetchOutcome.httpError)
          [{ id? := some "a/1", title? := some "E1", published_year? := some "2000",
             updated_year? := some "2000" },
           { id? := some "a/2", title? := some "E2", published_year? := some "1999",
             updated_year? := some "2000" },
           { id? := some "a/3", title? := some "E3", published_year? := some "2000",
             updated_year? := some "2000" },
           { id? := some "a/4", title? := some "E4", published_year? := some "1999",
             updated_year? := some "2000" },
           { id? := some "a/5", title? := some "E5", published_year? := some "2000",
             updated_year? := some "2000" }] []).2.1 =
        [(1, "E1"), (2, "E3"), (3, "E5")] := by
  constructor
  · intro cfg fetch feed stdin
    exact process_entries_indices cfg fetch feed {} 0 stdin
  · decide

theorem download_links_http_all :
    ∀ (cfg : Config) (fetch : String → FetchOutcome) (slug : String)
      (links : List String) (k : Nat) (stdin : List String),
      (∀ l ∈ links, fetch l = FetchOutcome.httpError) →
      (download_links cfg fetch slug links k stdin).2 = .ok stdin ∧
        (∀ l ∈ links, Event.reportFailure l ∈ (download_links cfg fetch slug links k stdin).1) ∧
        (∀ l ∈ links, ∃ p, Event.fetchAttempt l p ∈ (download_links cfg fetch slug links k stdin).1) := by
  intro cfg fetch slug links
  induction links with
  | nil => intro k stdin _; exact ⟨rfl, by simp, by simp⟩
  | cons link rest ih =>
      intro k stdin h
      have hf := h link (List.mem_cons_self _ _)
      have hrec := ih (k + 1) stdin (fun l hl => h l (List.mem_cons_of_mem _ hl))
      simp only [download_links, hf]
      refine ⟨hrec.1, ?_, ?_⟩
      · intro l hl
        rcases List.mem_cons.mp hl with rfl | hl
        · simp
        · simp [hrec.2.1 l hl]
      · intro l hl
        rcases List.mem_cons.mp hl with rfl | hl
        · exact ⟨expected_path cfg slug k, List.mem_cons_self _ _⟩
        · rcases hrec.2.2 l hl with ⟨p, hp⟩
          exact ⟨p, by simp [hp]⟩

theorem download_links_magic :
    ∀ (cfg : Config) (slug : String) (links : List String) (k : Nat) (stdin : List String),
      (download_links cfg (fun _ => FetchOutcome.success pdfMagic) slug links k stdin).2 =
        .ok stdin := by
  intro cfg slug links
  induction links with
  | nil => intro k stdin; rfl
  | cons link rest ih =>
      intro k stdin
      simp only [download_links]
      have hm : pdfMagic.take 4 = pdfMagic := by decide
      by_cases hk : cfg.keep_non_pdf = true
      · simp [validate_pdf, hk, hm, ih]
      · simp [validate_pdf, hk, hm, ih]

theorem process_entries_http_eq_magic :
    ∀ (cfg : Config) (fetch : String → FetchOutcome) (feed : List RawEntry)
      (st : LoopState) (idx : Nat) (stdin : List String),
      (∀ url, fetch url = FetchOutcome.httpError) →
      (process_entries cfg fetch feed st idx stdin).2 =
        (process_entries cfg (fun _ => FetchOutcome.success pdfMagic) feed st idx stdin).2 := by
  intro cfg fetch feed
  induction feed with
  | nil => intro st idx stdin _; rfl
  | cons e rest ih =>
      intro st idx stdin h
      simp only [process_entries]
      cases hfl : entry_filter cfg (step_state st e) with
      | error err => rfl
      | ok b =>
          cases b with
          | false => exact ih (step_state st e) idx stdin h
          | true =>
              cases hr : render_entry cfg (step_state st e) e.authors with
              | error err => rfl
              | ok slug =>
                  cases hw : want_download cfg (idx + 1) with
                  | error err => rfl
                  | ok b2 =>
                      cases b2 with
                      | false =>
                          have := ih (step_state st e) (idx + 1) stdin h
                          simp only [this]
                      | true =>
                          rcases hd : download_links cfg fetch slug e.pdf_links 1 stdin
                            with ⟨devs, dres⟩
                          have h1 : dres = .ok stdin := by
                            have := (download_links_http_all cfg fetch slug e.pdf_links 1 stdin
                              (fun l _ => h l)).1
                            rw [hd] at this
                            exact this
                          rcases hd2 : download_links cfg (fun _ => FetchOutcome.success pdfMagic)
                              slug e.pdf_links 1 stdin with ⟨devs2, dres2⟩
                          have h2 : dres2 = .ok stdin := by
                            have := download_links_magic cfg slug e.pdf_links 1 stdin
                            rw [hd2] at this
                            exact this
                          subst h1
                          subst h2
                          simp only [hd, hd2, ih (step_state st e) (idx + 1) stdin h]

/-- C2 amended: an `HTTPError` fetch failure on a link is reported to the
operator and never aborts sibling links or subsequent entries: with every
fetch failing with `HTTPError`, the download loop still attempts every
link of the entry, reports each failure, leaves the operator input
untouched and returns normally, and the whole run produces exactly the
surviving entries and final error status of a run in which every fetch
succeeds with a valid pdf.  (Only `urllib.error.HTTPError` is caught;
any other transport error propagates and aborts the run — see the
counterexample.) -/
theorem http_failures_nonfatal :
    ∀ (cfg : Config) (fetch : String → FetchOutcome) (feed : List RawEntry)
      (stdin : List String),
      (∀ url, fetch url = FetchOutcome.httpError) →
      (run cfg fetch feed stdin).2 =
          (run cfg (fun _ => FetchOutcome.success pdfMagic) feed stdin).2 ∧
        ∀ (slug : String) (links : List String) (k : Nat) (stdin2 : List String),
          (download_links cfg fetch slug links k stdin2).2 = .ok stdin2 ∧
            (∀ l ∈ links, Event.reportFailure l ∈
              (download_links cfg fetch slug links k stdin2).1) ∧
            (∀ l ∈ links, ∃ p, Event.fetchAttempt l p ∈
              (download_links cfg fetch slug links k stdin2).1) := by
  intro cfg fetch feed stdin h
  constructor
  · exact process_entries_http_eq_magic cfg fetch feed {} 0 stdin h
  · intro slug links k stdin2
    exact download_links_http_all cfg fetch slug links k stdin2 (fun l _ => h l)

/-- Witness for `http_failures_nonfatal` on a one-entry feed with two
links, every fetch failing with an HTTPError. -/
theorem http_failures_nonfatal_witness :
    (run { download := true } (fun _ => FetchOutcome.httpError)
        [{ id? := some "a/1", title? := some "T", published_year? := some "2023",
           updated_year? := some "2020", pdf_links := ["l1", "l2"] }] []).2 =
      (run { download := true } (fun _ => FetchOutcome.success pdfMagic)
        [{ id? := some "a/1", title? := some "T", published_year? := some "2023",
           updated_year? := some "2020", pdf_links := ["l1", "l2"] }] []).2 ∧
    (download_links { download := true } (fun _ => FetchOutcome.httpError)
        "X" ["l1", "l2"] 1 []).2 = .ok [] :=
  ⟨(http_failures_nonfatal { download := true } (fun _ => FetchOutcome.httpError)
      [{ id? := some "a/1", title? := some "T", published_year? := some "2023",
         updated_year? := some "2020", pdf_links := ["l1", "l2"] }] []
      (fun _ => rfl)).1,
    ((http_failures_nonfatal { download := true } (fun _ => FetchOutcome.httpError)
      [] [] (fun _ => rfl)).2 "X" ["l1", "l2"] 1 []).1⟩

/-- C2 counterexample: a non-HTTP transport error (`urllib.error.URLError`
and the like are not caught by the download loop) on the first of two
links aborts the whole run: the second link is never attempted and the
run ends with an uncaught error. -/
theorem transport_abort_counterexample :
    run { download := true, keep_non_pdf := true }
        (fun l => if l = "l1" then FetchOutcome.urlError else FetchOutcome.success pdfMagic)
        [{ id? := some "a/1", title? := some "T", published_year? := some "2023",
           updated_year? := some "2020", pdf_links := ["l1", "l2"] }] [] =
      ([Event.apiCall, Event.printEntry 1, Event.fetchAttempt "l1" "./2023--T-1.pdf"],
        [(1, "2023--T-1")], some PyErr.urlError) := by
  decide

/-- C3 counterexample: a run configured with the malformed range
specification `"x"` as publish-year filter does not fail at startup at
all — with an empty feed it performs the network call and terminates
without any error. -/
theorem startup_validation_counterexample :
    run { publish_years := some "x" } (fun _ => FetchOutcome.httpError) [] [] =
      ([Event.apiCall], [], none) := by
  decide

/-- C3 amended: a malformed range specification or an unknown template
placeholder is an uncaught fatal error, but it is raised lazily during
entry processing: the feed network call is always the first event of any
run, a run whose feed has no entries never raises such an error, a feed
whose first entry exercises the malformed publish-year filter `"x"`
fails with a `ValueError` only after the network call, and a run whose
template holds the unknown placeholder `foo` fails with a `KeyError`
only when a surviving entry reaches filename rendering, again after the
network call. -/
theorem config_errors_after_api_call :
    ∀ (cfg : Config) (fetch : String → FetchOutcome) (feed : List RawEntry)
      (stdin : List String),
      (run cfg fetch feed stdin).1.head? = some Event.apiCall ∧
        (feed = [] → (run cfg fetch feed stdin).2.2 = none) ∧
        (run { publish_years := some "x" } (fun _ => FetchOutcome.httpError)
            [{ id? := some "a/1", title? := some "T", published_year? := some "2023",
               updated_year? := some "2023" }] []).2.2 = some PyErr.valueError ∧
        (run { output_filename_template := "{foo}" } (fun _ => FetchOutcome.httpError)
            [{ id? := some "a/1", title? := some "T", published_year? := some "2023",
               updated_year? := some "2023" }] []).2.2 = some PyErr.keyError := by
  intro cfg fetch feed stdin
  refine ⟨rfl, ?_, by decide, by decide⟩
  rintro rfl
  rfl

/-- Witness for `config_errors_after_api_call`: the empty-feed hypothesis
discharged on a malformed-configuration run. -/
theorem config_errors_after_api_call_witness :
    ([] : List RawEntry) = [] ∧
      (run { publish_years := some "x", download_selection := some "y", download := true }
          (fun _ => FetchOutcome.httpError) [] []).2.2 = none :=
  ⟨rfl,
    (config_errors_after_api_call
        { publish_years := some "x", download_selection := some "y", download := true }
        (fun _ => FetchOutcome.httpError) [] []).2.1 rfl⟩

end Paper
